import Mathlib

/-!
Verification of the flox site-provisioning core (backend/main.go) against its
natural-language specification.  The Go source is shallowly embedded: pure
helpers become Lean functions, the filesystem state threaded by the handler
becomes an explicit `FS` record, and the fallible environment interactions
(`os.Stat`, `os.Mkdir` I/O faults, the config write, the outbound DNS call)
become explicit fault oracles passed to the embedded handler.
-/

namespace Flox

/-! ## Character classes of `siteNameRegex`

The Go regex is `^[a-zA-Z0-9]([a-zA-Z0-9\-]{0,61}[a-zA-Z0-9])?$` (main.go:20).
Character classes are expressed on Unicode code points: `a`-`z` is 97..122,
`A`-`Z` is 65..90, `0`-`9` is 48..57, `-` is 45. -/

/-- A character in the regex class `[a-zA-Z0-9]`. -/
def isGoAlnum (c : Char) : Bool :=
  decide (97 ≤ c.toNat ∧ c.toNat ≤ 122) ||
  decide (65 ≤ c.toNat ∧ c.toNat ≤ 90) ||
  decide (48 ≤ c.toNat ∧ c.toNat ≤ 57)

/-- A character in the regex class `[a-zA-Z0-9\-]`. -/
def isGoAlnumHyphen (c : Char) : Bool :=
  isGoAlnum c || decide (c.toNat = 45)

/-- Whether the last element of a character list is in `[a-zA-Z0-9]`
(false on the empty list). -/
def lastIsAlnum (l : List Char) : Bool :=
  match l.getLast? with
  | some d => isGoAlnum d
  | none => false

/-- Language of `siteNameRegex = ^[a-zA-Z0-9]([a-zA-Z0-9\-]{0,61}[a-zA-Z0-9])?$`
(main.go:20): either a single `[a-zA-Z0-9]` character, or such a character
followed by at most 61 characters of `[a-zA-Z0-9\-]` and a final
`[a-zA-Z0-9]` character. -/
def siteNameRegexMatches (s : String) : Bool :=
  match s.data with
  | [] => false
  | [c] => isGoAlnum c
  | c :: rest =>
    isGoAlnum c && decide (rest.length ≤ 62) &&
      rest.dropLast.all isGoAlnumHyphen && lastIsAlnum rest

/-- The reserved-name blacklist `siteNameBlacklist` (main.go:22-29); the Go
map's key set is modelled as a list. -/
def siteNameBlacklist : List String :=
  ["www", "mail", "ftp", "admin", "api"]

/-- Go `strings.ToLower` on one character, modelled on the ASCII range
(`A`-`Z`, code points 65..90, shift by 32): the only case the site-name
character classes can distinguish. -/
def goCharToLower (c : Char) : Char :=
  if 65 ≤ c.toNat ∧ c.toNat ≤ 90 then Char.ofNat (c.toNat + 32) else c

/-- Go `strings.ToLower`, applied character-wise. -/
def goToLower (s : String) : String :=
  String.mk (s.data.map goCharToLower)

/-- Error message of the pattern check (main.go:64). -/
def syntaxErrMsg : String :=
  "site name must be 1-63 characters, letters, digits, or hyphens; cannot start or end with hyphen"

/-- Error message of the blacklist check (main.go:68). -/
def reservedErrMsg : String :=
  "site name is reserved or forbidden"

/-- Error message of the existence check (main.go:76). -/
def existsErrMsg : String :=
  "site name already exists"

/-- Error returned by `createSiteDir` when the directory already exists
(main.go:165). -/
def mkdirExistsMsg : String :=
  "site already exists"

/-! ## The syntax rule as the specification words it

Spec §4.1 step 2: "length 1-63, characters limited to `[a-z0-9-]`, first and
last character must not be `-`".  This definition follows the spec's words
(not the source) and is compared against the source regex. -/

/-- Spec wording: a lower-case letter, digit or hyphen. -/
def specAllowedChar (c : Char) : Bool :=
  decide (97 ≤ c.toNat ∧ c.toNat ≤ 122) ||
  decide (48 ≤ c.toNat ∧ c.toNat ≤ 57) ||
  decide (c.toNat = 45)

/-- Spec wording: the first character is not a hyphen (false on the empty
string, which the rule rejects by its length bound anyway). -/
def firstNotHyphen (l : List Char) : Bool :=
  match l with
  | [] => false
  | c :: _ => decide (c.toNat ≠ 45)

/-- Spec wording: the last character is not a hyphen. -/
def lastNotHyphen (l : List Char) : Bool :=
  match l.getLast? with
  | some c => decide (c.toNat ≠ 45)
  | none => false

/-- Spec wording of the syntax rule: length 1-63, characters limited to
lower-case letters, digits and hyphen, first and last character not a
hyphen. -/
def specSyntaxOK (s : String) : Bool :=
  decide (1 ≤ s.data.length) && decide (s.data.length ≤ 63) &&
  s.data.all specAllowedChar &&
  firstNotHyphen s.data && lastNotHyphen s.data

/-! ## ReservationStore state and fault oracles -/

/-- `SiteConfig` (main.go:145-151); `CreatedAt` is modelled as an abstract
timestamp supplied by the environment. -/
structure SiteConfig where
  siteName : String
  description : String
  style : String
  initialContent : List String
  createdAt : Nat
deriving DecidableEq, Repr

/-- The storage state under the sites base directory: the set of claimed site
directories (the namespace) and the `config.json` artifacts inside them. -/
structure FS where
  dirs : List String
  configs : List (String × SiteConfig)
deriving DecidableEq, Repr

/-- Behaviour of the `os.Stat` probe in `siteExists` (main.go:81-91): either
the real filesystem answer, or a failure with an error other than
not-exist (e.g. an unreadable storage root). -/
inductive StatMode where
  | faithful
  | failWith (msg : String)
deriving DecidableEq, Repr

/-- `siteExists` (main.go:81-91): stat the directory; `nil` error means the
site exists, a not-exist error means it does not, any other stat error is
returned to the caller. -/
def siteExists (fs : FS) (mode : StatMode) (siteName : String) : Except String Bool :=
  match mode with
  | .faithful => .ok (decide (siteName ∈ fs.dirs))
  | .failWith m => .error m

/-- `validateSiteName` (main.go:60-79): lower-case the name, then check the
regex, then the blacklist, then existence in the namespace; each check
short-circuits. -/
def validateSiteName (fs : FS) (mode : StatMode) (siteName : String) : Except String Unit :=
  if ! siteNameRegexMatches (goToLower siteName) then .error syntaxErrMsg
  else if goToLower siteName ∈ siteNameBlacklist then .error reservedErrMsg
  else
    match siteExists fs mode (goToLower siteName) with
    | .error e => .error (("error checking site existence: ") ++ e)
    | .ok true => .error existsErrMsg
    | .ok false => .ok ()

/-! ## Handler-level embedding -/

/-- `siteCreationRequest` (main.go:132-137). -/
structure SiteCreationRequest where
  siteName : String
  description : String
  style : String
  initialContent : List String
deriving DecidableEq, Repr

/-- `siteCreationResponse` (main.go:139-143). -/
structure SiteCreationResponse where
  success : Bool
  siteUrl : String
  error : String
deriving DecidableEq, Repr

/-- `createSiteDir` (main.go:159-170): one exclusive `os.Mkdir` call.  It
fails with the exist-error when the directory is already present; otherwise
the oracle `fault` injects any other I/O failure, and on `none` the
directory is created atomically. -/
def createSiteDir (fs : FS) (fault : Option String) (siteName : String) : Except String FS :=
  if siteName ∈ fs.dirs then .error mkdirExistsMsg
  else
    match fault with
    | some m => .error m
    | none => .ok { fs with dirs := siteName :: fs.dirs }

/-- `writeSiteConfig` (main.go:172-183): write `config.json` inside the
claimed directory; `fault` injects an `os.Create`/encode failure, in which
case no record is stored. -/
def writeSiteConfig (fs : FS) (fault : Bool) (siteName : String) (config : SiteConfig) : Except String FS :=
  if fault then .error (("write failed"))
  else .ok { fs with configs := (siteName, config) :: fs.configs }

/-- Outcome of the outbound HTTP POST in `createARecord` (main.go:216-225):
either a transport error or a response with some status code. -/
inductive DnsTransport where
  | netFailure (msg : String)
  | status (code : Nat)
deriving DecidableEq, Repr

/-- The JSON payload sent to the DNS provider (main.go:196-201). -/
structure DnsRequest where
  subname : String
  recordType : String
  ttl : Nat
  records : List String
deriving DecidableEq, Repr

/-- Environment values read by the handler: `SITE_IP`, `DNS_API_RRSETS`,
`DNS_API_AUTH`. -/
structure Env where
  siteIP : String
  dnsApiURL : String
  dnsApiToken : String
deriving DecidableEq, Repr

/-- `createARecord` (main.go:185-228): fail when the DNS configuration is
missing, otherwise build the payload and perform one HTTP POST; any
transport failure or any status other than 201 Created is an error.
Returns the attempted outbound request (if one was sent) together with the
result. -/
def createARecord (env : Env) (transport : DnsTransport) (subdomain ip : String) :
    Option DnsRequest × Except String Unit :=
  if env.dnsApiURL = "" ∨ env.dnsApiToken = "" then (none, .error (("DNS API config missing")))
  else
    let payload : DnsRequest := ⟨subdomain, "A", 3600, [ip]⟩
    match transport with
    | .netFailure m => (some payload, .error (("HTTP request failed: ") ++ m))
    | .status code =>
      if code = 201 then (some payload, .ok ())
      else (some payload, .error (("unexpected status code: ") ++ toString code))

/-- The fault oracles threaded through one handler run: the `os.Stat`
behaviour, an optional non-exist `os.Mkdir` failure, whether the config
write fails, and the DNS transport outcome. -/
structure Faults where
  statMode : StatMode
  mkdirOther : Option String
  writeFails : Bool
  dns : DnsTransport
deriving DecidableEq, Repr

/-- How one handler run ends: a JSON body via `respondJSON`, an
`http.Error` status, or process termination via `log.Fatal`. -/
inductive HandlerOutcome where
  | json (resp : SiteCreationResponse)
  | httpError (msg : String) (code : Nat)
  | fatal (msg : String)
deriving DecidableEq, Repr

/-- Result of one embedded handler run: the outcome, the storage state
afterwards, and the outbound DNS request if one was attempted. -/
structure HandlerResult where
  outcome : HandlerOutcome
  fs : FS
  dnsCall : Option DnsRequest
deriving DecidableEq, Repr

/-- Substring test on character lists, used to model Go
`strings.Contains`. -/
def hasSubstring (pat : List Char) : List Char → Bool
  | [] => pat.isEmpty
  | c :: t => pat.isPrefixOf (c :: t) || hasSubstring pat t

/-- Go `strings.Contains s sub` (main.go:265). -/
def goContains (s sub : String) : Bool :=
  hasSubstring sub.data s.data

/-- `createSiteHandler` (main.go:244-299), starting at the validation step
(the HTTP method check and JSON decoding belong to the excluded routing
layer).  Mirrors the source: validate; redundant advisory existence check;
exclusive directory creation; config write; the `SITE_IP` check whose
failure is `log.Fatal`; the best-effort DNS call whose failure is only
logged; success response with the synthesized URL.  Note the source uses
the raw `req.SiteName` (not its lower-cased form) for every step after
validation. -/
def createSiteHandler (env : Env) (faults : Faults) (now : Nat)
    (req : SiteCreationRequest) (fs : FS) : HandlerResult :=
  match validateSiteName fs faults.statMode req.siteName with
  | .error e => ⟨.json ⟨false, "", e⟩, fs, none⟩
  | .ok () =>
    match siteExists fs faults.statMode req.siteName with
    | .error _ => ⟨.httpError (("Internal Server Error")) 500, fs, none⟩
    | .ok true => ⟨.json ⟨false, "", existsErrMsg⟩, fs, none⟩
    | .ok false =>
      match createSiteDir fs faults.mkdirOther req.siteName with
      | .error e =>
        if goContains e (("already exists")) then ⟨.json ⟨false, "", existsErrMsg⟩, fs, none⟩
        else ⟨.httpError (("Internal Server Error")) 500, fs, none⟩
      | .ok fs1 =>
        match writeSiteConfig fs1 faults.writeFails req.siteName
            ⟨req.siteName, req.description, req.style, req.initialContent, now⟩ with
        | .error _ => ⟨.httpError (("Internal Server Error")) 500, fs1, none⟩
        | .ok fs2 =>
          if env.siteIP = "" then ⟨.fatal (("SITE_IP is not set in environment")), fs2, none⟩
          else
            ⟨.json ⟨true, ("https://") ++ req.siteName ++ (".flox.click"), ""⟩, fs2,
              (createARecord env faults.dns req.siteName env.siteIP).fst⟩

/-! ## Concurrency model for the claim race

N handler instances race to claim one fixed name against one storage root.
Each instance executes, in order, the two advisory existence probes (the one
inside `validateSiteName`, main.go:71, and the handler's explicit one,
main.go:251) and then the exclusive `os.Mkdir` (main.go:162); the scheduler
interleaves these atomic storage operations arbitrarily.  `os.Mkdir` is
atomic-and-exclusive: it either creates the (fully visible) directory or
fails because it exists — partial entries cannot occur, which the model
reflects by making the create a single step.  A probe result is delivered by
`statF`, which for the faithful filesystem returns the current namespace
state; quantifying over arbitrary `statF` makes the advisory probes return
arbitrary (e.g. stale) answers. -/

/-- Progress of one racing handler instance through its storage operations. -/
inductive Phase where
  | start
  | validated (sawExists : Bool)
  | checked (sawExists : Bool)
  | done (success : Bool)
deriving DecidableEq, Repr

/-- Shared state of the race: whether the contested directory exists, and
each instance's phase. -/
structure CState where
  ns : Bool
  ph : List Phase
deriving DecidableEq, Repr

/-- One atomic storage operation by instance `i`: its first advisory probe,
its second advisory probe (skipped with an `AlreadyExists` answer when the
first probe reported the name taken, as in main.go:75-76 / 257-259), or its
exclusive `os.Mkdir`, which succeeds only when the directory is absent
(main.go:162-165). -/
def cstep (statF : Nat → Bool → Bool) (s : CState) (i : Nat) : CState :=
  match s.ph.get? i with
  | none => s
  | some .start => { s with ph := s.ph.set i (.validated (statF i s.ns)) }
  | some (.validated true) => { s with ph := s.ph.set i (.done false) }
  | some (.validated false) => { s with ph := s.ph.set i (.checked (statF i s.ns)) }
  | some (.checked true) => { s with ph := s.ph.set i (.done false) }
  | some (.checked false) =>
    if s.ns then { s with ph := s.ph.set i (.done false) }
    else { ns := true, ph := s.ph.set i (.done true) }
  | some (.done _) => s

/-- Run the race under a given interleaving of instance steps. -/
def crun (statF : Nat → Bool → Bool) (s : CState) (sched : List Nat) : CState :=
  sched.foldl (cstep statF) s

/-- The faithful advisory probe: it reports the actual current namespace
state, as `os.Stat` does. -/
def faithfulStat : Nat → Bool → Bool := fun _ b => b

/-- Initial race state for `n` concurrent claim attempts on a name not yet
present in the namespace. -/
def cinit (n : Nat) : CState :=
  ⟨false, List.replicate n .start⟩

/-- Number of instances whose claim succeeded. -/
def successCount (l : List Phase) : Nat :=
  l.countP (fun p => decide (p = Phase.done true))

/-- Number of instances that finished with `AlreadyExists`. -/
def alreadyExistsCount (l : List Phase) : Nat :=
  l.countP (fun p => decide (p = Phase.done false))

/-- An instance that has finished. -/
def isDonePhase : Phase → Bool
  | .done _ => true
  | _ => false

/-- Every instance has finished. -/
def allDone (l : List Phase) : Bool :=
  l.all isDonePhase

/-- 1 when the directory exists, 0 when not. -/
def nsCount : Bool → Nat
  | true => 1
  | false => 0

/-- The race invariant tying the namespace to the number of successes: the
directory exists exactly when exactly one instance has succeeded.  Its
preservation does not depend on what the advisory probes report. -/
def Inv1 (s : CState) : Prop :=
  successCount s.ph = nsCount s.ns

/-- The evidence invariant of the faithful race: any instance that saw the
name taken (by a probe or by the exclusive create failing) is witness that
the directory really exists. -/
def EvidInv (s : CState) : Prop :=
  ∀ p ∈ s.ph,
    (p = Phase.validated true ∨ p = Phase.checked true ∨ p = Phase.done false) →
    s.ns = true

/-! ## Sample concrete values used by the witnesses -/

/-- A sample environment with all configuration present. -/
def sampleEnv : Env :=
  ⟨("1.2.3.4"), ("desec.example/api/v1/rrsets/"), ("Token abc")⟩

/-- Fault oracle for an entirely healthy run: faithful stat, no mkdir or
write failure, DNS answers 201 Created. -/
def healthyFaults : Faults :=
  ⟨.faithful, none, false, .status 201⟩

/-- A sample creation request. -/
def sampleReq : SiteCreationRequest :=
  ⟨("my-site"), ("a demo site"), ("light"), [("hero")]⟩

/-- Fault oracle where only the outbound DNS request fails. -/
def dnsFailFaults : Faults :=
  ⟨.faithful, none, false, .netFailure ("connection refused")⟩

/-- Fault oracle where only the config write fails. -/
def writeFailFaults : Faults :=
  ⟨.faithful, none, true, .status 201⟩

/-- An environment whose site IP value is missing. -/
def noIPEnv : Env :=
  ⟨"", ("desec.example/api/v1/rrsets/"), ("Token abc")⟩

/-- The empty storage root. -/
def emptyFS : FS :=
  ⟨[], []⟩

/-! ## Facts about lower-casing and the character classes -/

theorem toNat_ofNat_valid (n : Nat) (h : n.isValidChar) : (Char.ofNat n).toNat = n := by
  unfold Char.ofNat
  rw [dif_pos h]
  rfl

/-- `goCharToLower` never yields an upper-case ASCII letter. -/
theorem goCharToLower_not_upper (c : Char) :
    ¬ (65 ≤ (goCharToLower c).toNat ∧ (goCharToLower c).toNat ≤ 90) := by
  unfold goCharToLower
  split
  case isTrue h =>
    have hv : (c.toNat + 32).isValidChar := Or.inl (by omega)
    rw [toNat_ofNat_valid _ hv]
    omega
  case isFalse h => omega

/-- Lower-cased strings contain no upper-case ASCII letter. -/
theorem goToLower_not_upper (s : String) :
    ∀ c ∈ (goToLower s).data, ¬ (65 ≤ c.toNat ∧ c.toNat ≤ 90) := by
  intro c hc
  have hd : (goToLower s).data = s.data.map goCharToLower := rfl
  rw [hd] at hc
  obtain ⟨x, _, rfl⟩ := List.mem_map.mp hc
  exact goCharToLower_not_upper x

theorem lastIsAlnum_concat (l : List Char) (b : Char) :
    lastIsAlnum (l ++ [b]) = isGoAlnum b := by
  simp [lastIsAlnum, List.getLast?_concat]

theorem lastNotHyphen_concat (l : List Char) (b : Char) :
    lastNotHyphen (l ++ [b]) = decide (b.toNat ≠ 45) := by
  simp [lastNotHyphen, List.getLast?_concat]

theorem isGoAlnum_iff_spec (c : Char) (h : ¬ (65 ≤ c.toNat ∧ c.toNat ≤ 90)) :
    isGoAlnum c = true ↔ (specAllowedChar c = true ∧ c.toNat ≠ 45) := by
  simp only [isGoAlnum, specAllowedChar, Bool.or_eq_true, decide_eq_true_eq]
  omega

theorem isGoAlnumHyphen_iff_spec (c : Char) (h : ¬ (65 ≤ c.toNat ∧ c.toNat ≤ 90)) :
    isGoAlnumHyphen c = true ↔ specAllowedChar c = true := by
  simp only [isGoAlnumHyphen, isGoAlnum, specAllowedChar, Bool.or_eq_true, decide_eq_true_eq]
  omega

theorem regexMatches_eq_specSyntaxOK (s : String)
    (h : ∀ c ∈ s.data, ¬ (65 ≤ c.toNat ∧ c.toNat ≤ 90)) :
    siteNameRegexMatches s = specSyntaxOK s := by
  obtain ⟨l⟩ := s
  match l with
  | [] => rfl
  | [c] =>
    have hc := h c (by simp)
    rw [Bool.eq_iff_iff]
    simp only [siteNameRegexMatches, specSyntaxOK, List.all_cons, List.all_nil,
      firstNotHyphen, lastNotHyphen, List.getLast?_singleton, List.length_cons,
      List.length_nil, Bool.and_eq_true, decide_eq_true_eq, Bool.and_true, Bool.true_and]
    rw [isGoAlnum_iff_spec c hc]
    constructor
    · intro hx
      exact ⟨⟨⟨⟨by omega, by omega⟩, hx.1⟩, hx.2⟩, hx.2⟩
    · intro hx
      exact ⟨hx.1.1.2, hx.2⟩
  | c :: d :: t =>
    have hc := h c (by simp)
    rcases List.eq_nil_or_concat (d :: t) with hnil | ⟨m, b, hmb⟩
    · exact absurd hnil (by simp)
    rw [List.concat_eq_append] at hmb
    have hb : ¬ (65 ≤ b.toNat ∧ b.toNat ≤ 90) := by
      apply h
      rw [show d :: t = m ++ [b] from hmb]
      simp
    have hm : ∀ x ∈ m, ¬ (65 ≤ x.toNat ∧ x.toNat ≤ 90) := by
      intro x hx
      apply h
      rw [show d :: t = m ++ [b] from hmb]
      simp [hx]
    rw [Bool.eq_iff_iff]
    simp only [siteNameRegexMatches, hmb, specSyntaxOK]
    rw [show (c :: (m ++ [b])) = ((c :: m) ++ [b]) from rfl, lastNotHyphen_concat]
    rw [show ((c :: m) ++ [b]) = (c :: (m ++ [b])) from rfl]
    simp only [lastIsAlnum_concat, List.dropLast_concat, firstNotHyphen,
      List.length_append, List.length_cons, List.length_nil, List.all_cons,
      List.all_append, List.all_nil, List.all_eq_true, Bool.and_eq_true,
      decide_eq_true_eq, Bool.and_true, Bool.true_and]
    rw [isGoAlnum_iff_spec c hc, isGoAlnum_iff_spec b hb]
    constructor
    · intro hx
      obtain ⟨⟨⟨⟨hcs, hch⟩, hlen⟩, hmid⟩, hbs, hbh⟩ := hx
      exact ⟨⟨⟨⟨by omega, by omega⟩, hcs, fun x hx => (isGoAlnumHyphen_iff_spec x (hm x hx)).mp (hmid x hx), hbs⟩, hch⟩, hbh⟩
    · intro hx
      obtain ⟨⟨⟨⟨_, hlen⟩, hcs, hmid, hbs⟩, hch⟩, hbh⟩ := hx
      exact ⟨⟨⟨⟨hcs, hch⟩, by omega⟩, fun x hx => (isGoAlnumHyphen_iff_spec x (hm x hx)).mpr (hmid x hx)⟩, hbs, hbh⟩

/-! ## Shape of `validateSiteName` results -/

theorem validate_syntax_fail (fs : FS) (mode : StatMode) (s : String)
    (h : siteNameRegexMatches (goToLower s) = false) :
    validateSiteName fs mode s = .error syntaxErrMsg := by
  unfold validateSiteName
  rw [h]
  rfl

theorem validate_reserved (fs : FS) (mode : StatMode) (s : String)
    (h1 : siteNameRegexMatches (goToLower s) = true)
    (h2 : goToLower s ∈ siteNameBlacklist) :
    validateSiteName fs mode s = .error reservedErrMsg := by
  unfold validateSiteName
  rw [h1]
  simp [h2]

theorem validate_probe_fail (fs : FS) (s msg : String)
    (h1 : siteNameRegexMatches (goToLower s) = true)
    (h2 : goToLower s ∉ siteNameBlacklist) :
    validateSiteName fs (.failWith msg) s =
      .error (("error checking site existence: ") ++ msg) := by
  unfold validateSiteName
  rw [h1]
  simp [h2, siteExists]

theorem validate_already_exists (fs : FS) (s : String)
    (h1 : siteNameRegexMatches (goToLower s) = true)
    (h2 : goToLower s ∉ siteNameBlacklist)
    (h3 : goToLower s ∈ fs.dirs) :
    validateSiteName fs .faithful s = .error existsErrMsg := by
  unfold validateSiteName
  rw [h1]
  simp [h2, h3, siteExists]

theorem validate_ok (fs : FS) (s : String)
    (h1 : siteNameRegexMatches (goToLower s) = true)
    (h2 : goToLower s ∉ siteNameBlacklist)
    (h3 : goToLower s ∉ fs.dirs) :
    validateSiteName fs .faithful s = .ok () := by
  unfold validateSiteName
  rw [h1]
  simp [h2, h3, siteExists]

theorem validate_ok_inv (fs : FS) (mode : StatMode) (s : String)
    (h : validateSiteName fs mode s = .ok ()) :
    siteNameRegexMatches (goToLower s) = true ∧
    goToLower s ∉ siteNameBlacklist ∧
    mode = .faithful ∧ goToLower s ∉ fs.dirs := by
  revert h
  unfold validateSiteName
  cases hreg : siteNameRegexMatches (goToLower s)
  · intro h
    simp at h
  by_cases hbl : goToLower s ∈ siteNameBlacklist
  · simp [hbl]
  cases mode with
  | faithful =>
    by_cases hdir : goToLower s ∈ fs.dirs
    · simp [hbl, hdir, siteExists]
    · simp [hbl, hdir, siteExists]
  | failWith m =>
    simp [hbl, siteExists]

/-- The storage-probe error message never coincides with a message that
starts with the letter `s` (all three user-error messages do). -/
theorem probe_msg_ne (e t : String) (h : t.data.head? = some 's') :
    (("error checking site existence: ") ++ e) ≠ t := by
  intro heq
  have hd := congrArg String.data heq
  rw [String.data_append] at hd
  have h1 : (("error checking site existence: ").data ++ e.data).head? = some 'e' := rfl
  rw [hd, h] at h1
  exact absurd (Option.some.inj h1) (by decide)



/-! ## Handler run shapes -/

/-- A fault-free handler run on a fresh, valid name: the directory is
claimed, the record written, and the success response carries the
synthesized URL, whatever the DNS outcome is. -/
theorem handler_success_run (env : Env) (faults : Faults) (now : Nat)
    (req : SiteCreationRequest) (fs : FS)
    (h1 : validateSiteName fs faults.statMode req.siteName = .ok ())
    (h2 : faults.statMode = .faithful)
    (h3 : req.siteName ∉ fs.dirs)
    (h4 : faults.mkdirOther = none)
    (h5 : faults.writeFails = false)
    (h6 : ¬ env.siteIP = "") :
    createSiteHandler env faults now req fs =
      ⟨.json ⟨true, ("https://") ++ req.siteName ++ (".flox.click"), ""⟩,
       ⟨req.siteName :: fs.dirs,
        (req.siteName, ⟨req.siteName, req.description, req.style, req.initialContent, now⟩)
          :: fs.configs⟩,
       (createARecord env faults.dns req.siteName env.siteIP).fst⟩ := by
  unfold createSiteHandler
  rw [h1, h2]
  simp [siteExists, h3, createSiteDir, h4, writeSiteConfig, h5, h6]

/-- Claiming a name whose directory already exists is rejected with the
user-facing `AlreadyExists` message and leaves the state unchanged, whether
the advisory probe inside validation or the handler's explicit check
catches it. -/
theorem claim_again_rejected (env : Env) (statf2 : Option String) (w2 : Bool)
    (d2 : DnsTransport) (now2 : Nat) (req : SiteCreationRequest) (fs1 : FS)
    (hreg : siteNameRegexMatches (goToLower req.siteName) = true)
    (hbl : goToLower req.siteName ∉ siteNameBlacklist)
    (hmem : req.siteName ∈ fs1.dirs) :
    createSiteHandler env ⟨.faithful, statf2, w2, d2⟩ now2 req fs1 =
      ⟨.json ⟨false, "", existsErrMsg⟩, fs1, none⟩ := by
  by_cases hlow : goToLower req.siteName ∈ fs1.dirs
  · unfold createSiteHandler
    rw [show (⟨.faithful, statf2, w2, d2⟩ : Faults).statMode = .faithful from rfl,
      validate_already_exists fs1 req.siteName hreg hbl hlow]
  · unfold createSiteHandler
    rw [show (⟨.faithful, statf2, w2, d2⟩ : Faults).statMode = .faithful from rfl,
      validate_ok fs1 req.siteName hreg hbl hlow]
    simp [siteExists, hmem]

/-! ## Lemmas for the claim race -/

theorem cstep_none (statF : Nat → Bool → Bool) (s : CState) (i : Nat)
    (h : s.ph.get? i = none) : cstep statF s i = s := by
  unfold cstep
  rw [h]

theorem cstep_start (statF : Nat → Bool → Bool) (s : CState) (i : Nat)
    (h : s.ph.get? i = some .start) :
    cstep statF s i = { s with ph := s.ph.set i (.validated (statF i s.ns)) } := by
  unfold cstep
  rw [h]

theorem cstep_validated_true (statF : Nat → Bool → Bool) (s : CState) (i : Nat)
    (h : s.ph.get? i = some (.validated true)) :
    cstep statF s i = { s with ph := s.ph.set i (.done false) } := by
  unfold cstep
  rw [h]

theorem cstep_validated_false (statF : Nat → Bool → Bool) (s : CState) (i : Nat)
    (h : s.ph.get? i = some (.validated false)) :
    cstep statF s i = { s with ph := s.ph.set i (.checked (statF i s.ns)) } := by
  unfold cstep
  rw [h]

theorem cstep_checked_true (statF : Nat → Bool → Bool) (s : CState) (i : Nat)
    (h : s.ph.get? i = some (.checked true)) :
    cstep statF s i = { s with ph := s.ph.set i (.done false) } := by
  unfold cstep
  rw [h]

theorem cstep_checked_false_claimed (statF : Nat → Bool → Bool) (s : CState) (i : Nat)
    (h : s.ph.get? i = some (.checked false)) (hns : s.ns = true) :
    cstep statF s i = { s with ph := s.ph.set i (.done false) } := by
  unfold cstep
  rw [h, hns]
  rfl

theorem cstep_checked_false_free (statF : Nat → Bool → Bool) (s : CState) (i : Nat)
    (h : s.ph.get? i = some (.checked false)) (hns : s.ns = false) :
    cstep statF s i = ⟨true, s.ph.set i (.done true)⟩ := by
  unfold cstep
  rw [h, hns]
  rfl

theorem cstep_done (statF : Nat → Bool → Bool) (s : CState) (i : Nat) (b : Bool)
    (h : s.ph.get? i = some (.done b)) : cstep statF s i = s := by
  unfold cstep
  rw [h]

theorem countP_set_add (p : Phase → Bool) :
    ∀ (l : List Phase) (i : Nat) (a b : Phase), l.get? i = some a →
      (l.set i b).countP p + (if p a then 1 else 0) = l.countP p + (if p b then 1 else 0)
  | [], i, a, b, h => by simp at h
  | x :: xs, 0, a, b, h => by
    obtain rfl : x = a := by simpa using h
    simp [List.set, List.countP_cons]
    omega
  | x :: xs, i + 1, a, b, h => by
    have ih := countP_set_add p xs i a b (by simpa using h)
    simp only [List.set, List.countP_cons]
    omega

theorem inv1_step (statF : Nat → Bool → Bool) (s : CState) (i : Nat)
    (h : Inv1 s) : Inv1 (cstep statF s i) := by
  cases hg : s.ph.get? i with
  | none => rw [cstep_none statF s i hg]; exact h
  | some p =>
    have hadd := countP_set_add (fun q => decide (q = Phase.done true)) s.ph i p
    cases p with
    | start =>
      rw [cstep_start statF s i hg]
      have hx := hadd (.validated (statF i s.ns)) hg
      simp at hx
      unfold Inv1 successCount at h
      show successCount (s.ph.set i (.validated (statF i s.ns))) = nsCount s.ns
      unfold successCount
      omega
    | validated b =>
      cases b
      · rw [cstep_validated_false statF s i hg]
        have hx := hadd (.checked (statF i s.ns)) hg
        simp at hx
        unfold Inv1 successCount at h
        show successCount (s.ph.set i (.checked (statF i s.ns))) = nsCount s.ns
        unfold successCount
        omega
      · rw [cstep_validated_true statF s i hg]
        have hx := hadd (.done false) hg
        simp at hx
        unfold Inv1 successCount at h
        show successCount (s.ph.set i (.done false)) = nsCount s.ns
        unfold successCount
        omega
    | checked b =>
      cases b
      · cases hns : s.ns
        · rw [cstep_checked_false_free statF s i hg hns]
          have hx := hadd (.done true) hg
          simp at hx
          unfold Inv1 successCount at h
          rw [hns] at h
          have h0 : List.countP (fun p => decide (p = Phase.done true)) s.ph = 0 := h
          show successCount (s.ph.set i (.done true)) = 1
          unfold successCount
          omega
        · rw [cstep_checked_false_claimed statF s i hg hns]
          have hx := hadd (.done false) hg
          simp at hx
          unfold Inv1 successCount at h
          show successCount (s.ph.set i (.done false)) = nsCount s.ns
          unfold successCount
          omega
      · rw [cstep_checked_true statF s i hg]
        have hx := hadd (.done false) hg
        simp at hx
        unfold Inv1 successCount at h
        show successCount (s.ph.set i (.done false)) = nsCount s.ns
        unfold successCount
        omega
    | done b =>
      rw [cstep_done statF s i b hg]
      exact h


theorem evid_step (s : CState) (i : Nat) (h : EvidInv s) :
    EvidInv (cstep faithfulStat s i) := by
  cases hg : s.ph.get? i with
  | none => rw [cstep_none _ s i hg]; exact h
  | some p =>
    cases p with
    | start =>
      rw [cstep_start _ s i hg]
      intro q hq hbad
      show s.ns = true
      rcases List.mem_or_eq_of_mem_set hq with hmem | rfl
      · exact h q hmem hbad
      · rcases hbad with h1 | h1 | h1
        · exact Phase.validated.inj h1
        · simp at h1
        · simp at h1
    | validated b =>
      cases b
      · rw [cstep_validated_false _ s i hg]
        intro q hq hbad
        show s.ns = true
        rcases List.mem_or_eq_of_mem_set hq with hmem | rfl
        · exact h q hmem hbad
        · rcases hbad with h1 | h1 | h1
          · simp at h1
          · exact Phase.checked.inj h1
          · simp at h1
      · rw [cstep_validated_true _ s i hg]
        have hns : s.ns = true := h _ (List.get?_mem hg) (Or.inl rfl)
        intro q hq hbad
        exact hns
    | checked b =>
      cases b
      · cases hns : s.ns
        · rw [cstep_checked_false_free _ s i hg hns]
          intro q hq hbad
          rfl
        · rw [cstep_checked_false_claimed _ s i hg hns]
          intro q hq hbad
          exact hns
      · rw [cstep_checked_true _ s i hg]
        have hns : s.ns = true := h _ (List.get?_mem hg) (Or.inr (Or.inl rfl))
        intro q hq hbad
        exact hns
    | done b =>
      rw [cstep_done _ s i b hg]
      exact h

theorem cstep_length (statF : Nat → Bool → Bool) (s : CState) (i : Nat) :
    (cstep statF s i).ph.length = s.ph.length := by
  cases hg : s.ph.get? i with
  | none => rw [cstep_none statF s i hg]
  | some p =>
    cases p with
    | start => rw [cstep_start statF s i hg]; simp
    | validated b =>
      cases b
      · rw [cstep_validated_false statF s i hg]; simp
      · rw [cstep_validated_true statF s i hg]; simp
    | checked b =>
      cases b
      · cases hns : s.ns
        · rw [cstep_checked_false_free statF s i hg hns]; simp
        · rw [cstep_checked_false_claimed statF s i hg hns]; simp
      · rw [cstep_checked_true statF s i hg]; simp
    | done b => rw [cstep_done statF s i b hg]

theorem crun_inv1 (statF : Nat → Bool → Bool) (sched : List Nat) :
    ∀ s : CState, Inv1 s → Inv1 (crun statF s sched) := by
  induction sched with
  | nil => intro s h; exact h
  | cons i rest ih => intro s h; exact ih (cstep statF s i) (inv1_step statF s i h)

theorem crun_evid (sched : List Nat) :
    ∀ s : CState, EvidInv s → EvidInv (crun faithfulStat s sched) := by
  induction sched with
  | nil => intro s h; exact h
  | cons i rest ih => intro s h; exact ih (cstep faithfulStat s i) (evid_step s i h)

theorem crun_length (statF : Nat → Bool → Bool) (sched : List Nat) :
    ∀ s : CState, (crun statF s sched).ph.length = s.ph.length := by
  induction sched with
  | nil => intro s; rfl
  | cons i rest ih =>
    intro s
    have := ih (cstep statF s i)
    rw [show crun statF s (i :: rest) = crun statF (cstep statF s i) rest from rfl, this,
      cstep_length statF s i]

theorem done_partition (l : List Phase) (hd : allDone l = true) :
    successCount l + alreadyExistsCount l = l.length := by
  revert hd
  induction l with
  | nil => intro _; rfl
  | cons p t ih =>
    intro hd
    rw [allDone, List.all_cons, Bool.and_eq_true] at hd
    have ht := ih hd.2
    cases p with
    | start => simp [isDonePhase] at hd
    | validated b => simp [isDonePhase] at hd
    | checked b => simp [isDonePhase] at hd
    | done b =>
      cases b
      · unfold successCount alreadyExistsCount at ht ⊢
        simp [List.countP_cons]
        omega
      · unfold successCount alreadyExistsCount at ht ⊢
        simp [List.countP_cons]
        omega

/-! ## Handler equations and the exhaustive run shape -/

theorem handler_eq_validate_error (env : Env) (faults : Faults) (now : Nat)
    (req : SiteCreationRequest) (fs : FS) (e : String)
    (hv : validateSiteName fs faults.statMode req.siteName = .error e) :
    createSiteHandler env faults now req fs = ⟨.json ⟨false, "", e⟩, fs, none⟩ := by
  unfold createSiteHandler
  rw [hv]

theorem handler_eq_stat_error (env : Env) (faults : Faults) (now : Nat)
    (req : SiteCreationRequest) (fs : FS) (e : String)
    (hv : validateSiteName fs faults.statMode req.siteName = .ok ())
    (he : siteExists fs faults.statMode req.siteName = .error e) :
    createSiteHandler env faults now req fs =
      ⟨.httpError (("Internal Server Error")) 500, fs, none⟩ := by
  unfold createSiteHandler
  rw [hv, he]

theorem handler_eq_exists_true (env : Env) (faults : Faults) (now : Nat)
    (req : SiteCreationRequest) (fs : FS)
    (hv : validateSiteName fs faults.statMode req.siteName = .ok ())
    (he : siteExists fs faults.statMode req.siteName = .ok true) :
    createSiteHandler env faults now req fs =
      ⟨.json ⟨false, "", existsErrMsg⟩, fs, none⟩ := by
  unfold createSiteHandler
  rw [hv, he]

theorem handler_eq_mkdir_exists (env : Env) (faults : Faults) (now : Nat)
    (req : SiteCreationRequest) (fs : FS) (e : String)
    (hv : validateSiteName fs faults.statMode req.siteName = .ok ())
    (he : siteExists fs faults.statMode req.siteName = .ok false)
    (hd : createSiteDir fs faults.mkdirOther req.siteName = .error e)
    (hc : goContains e (("already exists")) = true) :
    createSiteHandler env faults now req fs =
      ⟨.json ⟨false, "", existsErrMsg⟩, fs, none⟩ := by
  unfold createSiteHandler
  rw [hv, he, hd]
  simp [hc]

theorem handler_eq_mkdir_other (env : Env) (faults : Faults) (now : Nat)
    (req : SiteCreationRequest) (fs : FS) (e : String)
    (hv : validateSiteName fs faults.statMode req.siteName = .ok ())
    (he : siteExists fs faults.statMode req.siteName = .ok false)
    (hd : createSiteDir fs faults.mkdirOther req.siteName = .error e)
    (hc : goContains e (("already exists")) = false) :
    createSiteHandler env faults now req fs =
      ⟨.httpError (("Internal Server Error")) 500, fs, none⟩ := by
  unfold createSiteHandler
  rw [hv, he, hd]
  simp [hc]

theorem handler_eq_write_error (env : Env) (faults : Faults) (now : Nat)
    (req : SiteCreationRequest) (fs fs1 : FS) (e : String)
    (hv : validateSiteName fs faults.statMode req.siteName = .ok ())
    (he : siteExists fs faults.statMode req.siteName = .ok false)
    (hd : createSiteDir fs faults.mkdirOther req.siteName = .ok fs1)
    (hw : writeSiteConfig fs1 faults.writeFails req.siteName
      ⟨req.siteName, req.description, req.style, req.initialContent, now⟩ = .error e) :
    createSiteHandler env faults now req fs =
      ⟨.httpError (("Internal Server Error")) 500, fs1, none⟩ := by
  unfold createSiteHandler
  rw [hv, he, hd]
  simp [hw]

theorem handler_eq_fatal (env : Env) (faults : Faults) (now : Nat)
    (req : SiteCreationRequest) (fs fs1 fs2 : FS)
    (hv : validateSiteName fs faults.statMode req.siteName = .ok ())
    (he : siteExists fs faults.statMode req.siteName = .ok false)
    (hd : createSiteDir fs faults.mkdirOther req.siteName = .ok fs1)
    (hw : writeSiteConfig fs1 faults.writeFails req.siteName
      ⟨req.siteName, req.description, req.style, req.initialContent, now⟩ = .ok fs2)
    (hip : env.siteIP = "") :
    createSiteHandler env faults now req fs =
      ⟨.fatal (("SITE_IP is not set in environment")), fs2, none⟩ := by
  unfold createSiteHandler
  rw [hv, he, hd]
  simp [hw, hip]

theorem handler_eq_success (env : Env) (faults : Faults) (now : Nat)
    (req : SiteCreationRequest) (fs fs1 fs2 : FS)
    (hv : validateSiteName fs faults.statMode req.siteName = .ok ())
    (he : siteExists fs faults.statMode req.siteName = .ok false)
    (hd : createSiteDir fs faults.mkdirOther req.siteName = .ok fs1)
    (hw : writeSiteConfig fs1 faults.writeFails req.siteName
      ⟨req.siteName, req.description, req.style, req.initialContent, now⟩ = .ok fs2)
    (hip : ¬ env.siteIP = "") :
    createSiteHandler env faults now req fs =
      ⟨.json ⟨true, ("https://") ++ req.siteName ++ (".flox.click"), ""⟩, fs2,
        (createARecord env faults.dns req.siteName env.siteIP).fst⟩ := by
  unfold createSiteHandler
  rw [hv, he, hd]
  simp [hw, hip]

theorem createSiteDir_ok_inv (fs : FS) (fault : Option String) (name : String) (fs1 : FS)
    (h : createSiteDir fs fault name = .ok fs1) :
    fs1 = ⟨name :: fs.dirs, fs.configs⟩ ∧ name ∉ fs.dirs ∧ fault = none := by
  revert h
  unfold createSiteDir
  by_cases hm : name ∈ fs.dirs
  · simp [hm]
  · rw [if_neg hm]
    cases fault with
    | none =>
      intro h
      simp at h
      exact ⟨h.symm, hm, rfl⟩
    | some m =>
      intro h
      simp at h
  
theorem writeSiteConfig_ok_inv (fs : FS) (fault : Bool) (name : String)
    (config : SiteConfig) (fs2 : FS)
    (h : writeSiteConfig fs fault name config = .ok fs2) :
    fs2 = ⟨fs.dirs, (name, config) :: fs.configs⟩ ∧ fault = false := by
  revert h
  unfold writeSiteConfig
  cases fault
  · intro h
    simp at h
    exact ⟨h.symm, rfl⟩
  · intro h
    simp at h

theorem writeSiteConfig_error_inv (fs : FS) (fault : Bool) (name : String)
    (config : SiteConfig) (e : String)
    (h : writeSiteConfig fs fault name config = .error e) :
    fault = true := by
  revert h
  unfold writeSiteConfig
  cases fault <;> intro h <;> simp at h
  rfl

theorem createARecord_subname (env : Env) (transport : DnsTransport) (sub ip : String)
    (p : DnsRequest) (h : (createARecord env transport sub ip).fst = some p) :
    p.subname = sub := by
  revert h
  unfold createARecord
  by_cases hc : env.dnsApiURL = "" ∨ env.dnsApiToken = ""
  · simp [hc]
  · cases transport with
    | netFailure m =>
      simp [hc]
      intro h
      rw [← h]
    | status code =>
      by_cases h201 : code = 201
      · simp [hc, h201]
        intro h
        rw [← h]
      · simp [hc, h201]
        intro h
        rw [← h]

/-- Exhaustive shape of one handler run: it fails before any side effect,
or fails with the internal error after the claim because the record write
failed, or terminates the process on missing `SITE_IP` after claim and
write, or succeeds with claim and record in place. -/
theorem handler_shape (env : Env) (faults : Faults) (now : Nat)
    (req : SiteCreationRequest) (fs : FS) :
    (∃ e, createSiteHandler env faults now req fs = ⟨.json ⟨false, "", e⟩, fs, none⟩) ∨
    (createSiteHandler env faults now req fs =
      ⟨.httpError (("Internal Server Error")) 500, fs, none⟩) ∨
    (faults.writeFails = true ∧
      createSiteHandler env faults now req fs =
        ⟨.httpError (("Internal Server Error")) 500, ⟨req.siteName :: fs.dirs, fs.configs⟩, none⟩) ∨
    (env.siteIP = "" ∧ faults.writeFails = false ∧
      createSiteHandler env faults now req fs =
        ⟨.fatal (("SITE_IP is not set in environment")),
          ⟨req.siteName :: fs.dirs,
            (req.siteName, ⟨req.siteName, req.description, req.style, req.initialContent, now⟩)
              :: fs.configs⟩, none⟩) ∨
    (¬ env.siteIP = "" ∧ faults.writeFails = false ∧
      createSiteHandler env faults now req fs =
        ⟨.json ⟨true, ("https://") ++ req.siteName ++ (".flox.click"), ""⟩,
          ⟨req.siteName :: fs.dirs,
            (req.siteName, ⟨req.siteName, req.description, req.style, req.initialContent, now⟩)
              :: fs.configs⟩,
          (createARecord env faults.dns req.siteName env.siteIP).fst⟩) := by
  cases hv : validateSiteName fs faults.statMode req.siteName with
  | error e => exact Or.inl ⟨e, handler_eq_validate_error env faults now req fs e hv⟩
  | ok u =>
    cases u
    cases he : siteExists fs faults.statMode req.siteName with
    | error e2 => exact Or.inr (Or.inl (handler_eq_stat_error env faults now req fs e2 hv he))
    | ok b =>
      cases b
      case ok.false =>
        cases hd : createSiteDir fs faults.mkdirOther req.siteName with
        | error e3 =>
          cases hc : goContains e3 (("already exists")) with
          | true =>
            exact Or.inl ⟨existsErrMsg, handler_eq_mkdir_exists env faults now req fs e3 hv he hd hc⟩
          | false =>
            exact Or.inr (Or.inl (handler_eq_mkdir_other env faults now req fs e3 hv he hd hc))
        | ok fs1 =>
          obtain ⟨hfs1, hnm, hfault⟩ := createSiteDir_ok_inv fs faults.mkdirOther req.siteName fs1 hd
          cases hw : writeSiteConfig fs1 faults.writeFails req.siteName
              ⟨req.siteName, req.description, req.style, req.initialContent, now⟩ with
          | error e4 =>
            refine Or.inr (Or.inr (Or.inl ⟨writeSiteConfig_error_inv _ _ _ _ _ hw, ?_⟩))
            rw [handler_eq_write_error env faults now req fs fs1 e4 hv he hd hw, hfs1]
          | ok fs2 =>
            obtain ⟨hfs2, hwf⟩ := writeSiteConfig_ok_inv _ _ _ _ _ hw
            by_cases hip : env.siteIP = ""
            · refine Or.inr (Or.inr (Or.inr (Or.inl ⟨hip, hwf, ?_⟩)))
              rw [handler_eq_fatal env faults now req fs fs1 fs2 hv he hd hw hip, hfs2, hfs1]
            · refine Or.inr (Or.inr (Or.inr (Or.inr ⟨hip, hwf, ?_⟩)))
              rw [handler_eq_success env faults now req fs fs1 fs2 hv he hd hw hip, hfs2, hfs1]
      case ok.true =>
        exact Or.inl ⟨existsErrMsg, handler_eq_exists_true env faults now req fs hv he⟩


/-! ## Claim theorems -/

/-- Claim C5: `validateSiteName` returns the `InvalidSyntax` failure (the
fixed syntax error message) exactly when the lower-cased input fails the
spec's syntax rule (length 1-63, characters limited to lower-case letters,
digits and hyphen, first and last character not a hyphen); since the
equivalence holds for every storage state and every stat behaviour, the
syntax check short-circuits before the reserved-word and existence
checks. -/
theorem c5_invalid_syntax_iff (fs : FS) (mode : StatMode) (s : String) :
    validateSiteName fs mode s = .error syntaxErrMsg ↔
      specSyntaxOK (goToLower s) = false := by
  have hequiv := regexMatches_eq_specSyntaxOK (goToLower s) (goToLower_not_upper s)
  cases hreg : siteNameRegexMatches (goToLower s)
  · rw [validate_syntax_fail fs mode s hreg]
    rw [hreg] at hequiv
    simp [← hequiv]
  · rw [hreg] at hequiv
    constructor
    · intro hres
      exfalso
      by_cases hbl : goToLower s ∈ siteNameBlacklist
      · rw [validate_reserved fs mode s hreg hbl] at hres
        exact absurd (Except.error.inj hres) (by decide)
      · cases mode with
        | failWith m =>
          rw [validate_probe_fail fs s m hreg hbl] at hres
          exact probe_msg_ne m syntaxErrMsg rfl (Except.error.inj hres)
        | faithful =>
          by_cases hdir : goToLower s ∈ fs.dirs
          · rw [validate_already_exists fs s hreg hbl hdir] at hres
            exact absurd (Except.error.inj hres) (by decide)
          · rw [validate_ok fs s hreg hbl hdir] at hres
            exact absurd hres (by simp)
    · intro hspec
      rw [← hequiv] at hspec
      simp at hspec

/-- Claim C9: for any input whose lower-cased form is in the reserved set,
`validateSiteName` returns the `Reserved` failure with the exact message
"site name is reserved or forbidden", for every storage state and stat
behaviour (so regardless of the input's case). -/
theorem c9_reserved_any_case (fs : FS) (mode : StatMode) (s : String)
    (h : goToLower s ∈ siteNameBlacklist) :
    validateSiteName fs mode s = .error (("site name is reserved or forbidden")) := by
  have hreg : siteNameRegexMatches (goToLower s) = true := by
    simp only [siteNameBlacklist, List.mem_cons, List.not_mem_nil, or_false] at h
    rcases h with h | h | h | h | h <;> rw [h] <;> decide
  exact validate_reserved fs mode s hreg h

/-- Claim C9 witness: the input "API" is lower-cased to "api", which is
reserved. -/
theorem c9_reserved_any_case_witness :
    goToLower ("API") ∈ siteNameBlacklist ∧
    validateSiteName ⟨[], []⟩ .faithful ("API") =
      .error (("site name is reserved or forbidden")) :=
  ⟨by decide, c9_reserved_any_case ⟨[], []⟩ .faithful ("API") (by decide)⟩

/-- Claim C10: when the existence probe fails with a stat error other than
not-exist, `validateSiteName` returns a failure whose message is
"error checking site existence: ..." — distinct from the three user-error
messages `InvalidSyntax`, `Reserved` and `AlreadyExists`, whatever the
underlying stat error text is. -/
theorem c10_probe_error_fourth_outcome (fs : FS) (s emsg : String)
    (h1 : siteNameRegexMatches (goToLower s) = true)
    (h2 : goToLower s ∉ siteNameBlacklist) :
    validateSiteName fs (.failWith emsg) s =
      .error (("error checking site existence: ") ++ emsg) ∧
    (("error checking site existence: ") ++ emsg) ≠ syntaxErrMsg ∧
    (("error checking site existence: ") ++ emsg) ≠ reservedErrMsg ∧
    (("error checking site existence: ") ++ emsg) ≠ existsErrMsg :=
  ⟨validate_probe_fail fs s emsg h1 h2, probe_msg_ne emsg syntaxErrMsg rfl,
    probe_msg_ne emsg reservedErrMsg rfl, probe_msg_ne emsg existsErrMsg rfl⟩

/-- Claim C10 witness: a valid unreserved name with an unreadable storage
root. -/
theorem c10_probe_error_fourth_outcome_witness :
    (siteNameRegexMatches (goToLower ("mysite")) = true ∧
      goToLower ("mysite") ∉ siteNameBlacklist) ∧
    (validateSiteName ⟨[], []⟩ (.failWith ("permission denied")) ("mysite") =
      .error (("error checking site existence: ") ++ ("permission denied")) ∧
    (("error checking site existence: ") ++ ("permission denied")) ≠ syntaxErrMsg ∧
    (("error checking site existence: ") ++ ("permission denied")) ≠ reservedErrMsg ∧
    (("error checking site existence: ") ++ ("permission denied")) ≠ existsErrMsg) :=
  ⟨⟨by decide, by decide⟩,
    c10_probe_error_fourth_outcome ⟨[], []⟩ ("mysite") ("permission denied")
      (by decide) (by decide)⟩


/-- Claim C2: for a fresh name passing validation, claiming twice in
sequence yields a first success (the namespace entry is created), and a
second call that fails: the exclusive create itself returns the
`AlreadyExists` error, the handler reports "site name already exists" to
the caller, and the state after the second call is exactly the state the
first call produced. -/
theorem c2_claim_twice (env : Env) (faults : Faults) (now : Nat)
    (req : SiteCreationRequest) (fs : FS)
    (statf2 : Option String) (w2 : Bool) (d2 : DnsTransport) (now2 : Nat)
    (h1 : validateSiteName fs faults.statMode req.siteName = .ok ())
    (h2 : faults.statMode = .faithful)
    (h3 : req.siteName ∉ fs.dirs)
    (h4 : faults.mkdirOther = none)
    (h5 : faults.writeFails = false)
    (h6 : ¬ env.siteIP = "") :
    (createSiteHandler env faults now req fs).outcome =
      .json ⟨true, ("https://") ++ req.siteName ++ (".flox.click"), ""⟩ ∧
    req.siteName ∈ (createSiteHandler env faults now req fs).fs.dirs ∧
    createSiteDir (createSiteHandler env faults now req fs).fs none req.siteName =
      .error mkdirExistsMsg ∧
    createSiteHandler env ⟨.faithful, statf2, w2, d2⟩ now2 req
        (createSiteHandler env faults now req fs).fs =
      ⟨.json ⟨false, "", existsErrMsg⟩, (createSiteHandler env faults now req fs).fs, none⟩ := by
  have hinv := validate_ok_inv fs faults.statMode req.siteName h1
  rw [handler_success_run env faults now req fs h1 h2 h3 h4 h5 h6]
  refine ⟨rfl, by simp, by simp [createSiteDir], ?_⟩
  exact claim_again_rejected env statf2 w2 d2 now2 req _ hinv.1 hinv.2.1 (by simp)

/-- Claim C2 witness: the fresh name "my-site" against an empty storage
root; the first call succeeds and the second is rejected. -/
theorem c2_claim_twice_witness :
    validateSiteName emptyFS healthyFaults.statMode sampleReq.siteName = .ok () ∧
    (createSiteHandler sampleEnv healthyFaults 7 sampleReq emptyFS).outcome =
      .json ⟨true, ("https://") ++ sampleReq.siteName ++ (".flox.click"), ""⟩ ∧
    sampleReq.siteName ∈ (createSiteHandler sampleEnv healthyFaults 7 sampleReq emptyFS).fs.dirs ∧
    createSiteDir (createSiteHandler sampleEnv healthyFaults 7 sampleReq emptyFS).fs none
        sampleReq.siteName = .error mkdirExistsMsg ∧
    createSiteHandler sampleEnv ⟨.faithful, none, false, .status 201⟩ 8 sampleReq
        (createSiteHandler sampleEnv healthyFaults 7 sampleReq emptyFS).fs =
      ⟨.json ⟨false, "", existsErrMsg⟩,
        (createSiteHandler sampleEnv healthyFaults 7 sampleReq emptyFS).fs, none⟩ :=
  ⟨rfl,
    c2_claim_twice sampleEnv healthyFaults 7 sampleReq emptyFS none false (.status 201) 8
      rfl rfl (by decide) rfl rfl (by decide)⟩


/-- Claim C3: when the claim step succeeds and the DNS address-record
creation then fails (for any reason the oracle can produce: missing DNS
configuration, network failure, or a non-201 status), the handler still
responds with success and the synthesized site URL, the namespace entry and
the persisted record both remain, and a subsequent claim attempt for the
same name is rejected with "site name already exists". -/
theorem c3_dns_failure_keeps_success (env : Env) (faults : Faults) (now : Nat)
    (req : SiteCreationRequest) (fs : FS) (dmsg : String)
    (statf2 : Option String) (w2 : Bool) (d2 : DnsTransport) (now2 : Nat)
    (h1 : validateSiteName fs faults.statMode req.siteName = .ok ())
    (h2 : faults.statMode = .faithful)
    (h3 : req.siteName ∉ fs.dirs)
    (h4 : faults.mkdirOther = none)
    (h5 : faults.writeFails = false)
    (h6 : ¬ env.siteIP = "")
    (h7 : (createARecord env faults.dns req.siteName env.siteIP).snd = .error dmsg) :
    (createSiteHandler env faults now req fs).outcome =
      .json ⟨true, ("https://") ++ req.siteName ++ (".flox.click"), ""⟩ ∧
    req.siteName ∈ (createSiteHandler env faults now req fs).fs.dirs ∧
    (req.siteName, ⟨req.siteName, req.description, req.style, req.initialContent, now⟩) ∈
      (createSiteHandler env faults now req fs).fs.configs ∧
    createSiteHandler env ⟨.faithful, statf2, w2, d2⟩ now2 req
        (createSiteHandler env faults now req fs).fs =
      ⟨.json ⟨false, "", existsErrMsg⟩, (createSiteHandler env faults now req fs).fs, none⟩ := by
  have hinv := validate_ok_inv fs faults.statMode req.siteName h1
  rw [handler_success_run env faults now req fs h1 h2 h3 h4 h5 h6]
  refine ⟨rfl, by simp, by simp, ?_⟩
  exact claim_again_rejected env statf2 w2 d2 now2 req _ hinv.1 hinv.2.1 (by simp)

/-- Claim C3 witness: a fresh name, a healthy store, and a DNS transport
failure; the run reports success and the name stays claimed. -/
theorem c3_dns_failure_keeps_success_witness :
    (createARecord sampleEnv dnsFailFaults.dns sampleReq.siteName sampleEnv.siteIP).snd =
      .error (("HTTP request failed: connection refused")) ∧
    (createSiteHandler sampleEnv dnsFailFaults 7 sampleReq emptyFS).outcome =
      .json ⟨true, ("https://") ++ sampleReq.siteName ++ (".flox.click"), ""⟩ ∧
    sampleReq.siteName ∈ (createSiteHandler sampleEnv dnsFailFaults 7 sampleReq emptyFS).fs.dirs ∧
    createSiteHandler sampleEnv ⟨.faithful, none, false, .status 201⟩ 8 sampleReq
        (createSiteHandler sampleEnv dnsFailFaults 7 sampleReq emptyFS).fs =
      ⟨.json ⟨false, "", existsErrMsg⟩,
        (createSiteHandler sampleEnv dnsFailFaults 7 sampleReq emptyFS).fs, none⟩ :=
  ⟨rfl,
    (c3_dns_failure_keeps_success sampleEnv dnsFailFaults 7 sampleReq emptyFS
      (("HTTP request failed: connection refused")) none false (.status 201) 8
      rfl rfl (by decide) rfl rfl (by decide) rfl).1,
    (c3_dns_failure_keeps_success sampleEnv dnsFailFaults 7 sampleReq emptyFS
      (("HTTP request failed: connection refused")) none false (.status 201) 8
      rfl rfl (by decide) rfl rfl (by decide) rfl).2.1,
    (c3_dns_failure_keeps_success sampleEnv dnsFailFaults 7 sampleReq emptyFS
      (("HTTP request failed: connection refused")) none false (.status 201) 8
      rfl rfl (by decide) rfl rfl (by decide) rfl).2.2.2⟩

/-- Claim C4: when the claim succeeds but the subsequent record write
fails, the claim is not rolled back — the namespace entry remains, no
record is stored, and a later exclusive create for the name still fails —
and the caller is answered with the generic internal error, not with
success. -/
theorem c4_write_failure_keeps_claim (env : Env) (faults : Faults) (now : Nat)
    (req : SiteCreationRequest) (fs : FS)
    (h1 : validateSiteName fs faults.statMode req.siteName = .ok ())
    (h2 : faults.statMode = .faithful)
    (h3 : req.siteName ∉ fs.dirs)
    (h4 : faults.mkdirOther = none)
    (h5 : faults.writeFails = true) :
    createSiteHandler env faults now req fs =
      ⟨.httpError (("Internal Server Error")) 500, ⟨req.siteName :: fs.dirs, fs.configs⟩, none⟩ ∧
    createSiteDir ⟨req.siteName :: fs.dirs, fs.configs⟩ none req.siteName =
      .error mkdirExistsMsg := by
  constructor
  · unfold createSiteHandler
    rw [h1, h2]
    simp [siteExists, h3, createSiteDir, h4, writeSiteConfig, h5]
  · simp [createSiteDir]

/-- Claim C4 witness: a fresh name with a failing config write; the entry
is created, the response is the internal error. -/
theorem c4_write_failure_keeps_claim_witness :
    createSiteHandler sampleEnv writeFailFaults 7 sampleReq emptyFS =
      ⟨.httpError (("Internal Server Error")) 500,
        ⟨[sampleReq.siteName], emptyFS.configs⟩, none⟩ ∧
    createSiteDir ⟨[sampleReq.siteName], emptyFS.configs⟩ none sampleReq.siteName =
      .error mkdirExistsMsg :=
  c4_write_failure_keeps_claim sampleEnv writeFailFaults 7 sampleReq emptyFS
    rfl rfl (by decide) rfl rfl


/-- Claim C1: in any interleaved execution of N concurrent claim attempts
for the identical name against one storage root in which every attempt runs
to completion, exactly one attempt succeeds and the other N-1 end with
`AlreadyExists`, and the namespace entry exists afterwards; every scheduler
step is an atomic storage operation, so no corrupted or partially-visible
entry is ever observable.  The final conjunct shows the exclusive create
alone provides the mutual exclusion: even when the advisory existence
probes answer arbitrarily (stale or adversarial `statF`), at most one
attempt can ever succeed. -/
theorem c1_exactly_one_claim_wins (n : Nat) (sched : List Nat)
    (hn : 1 ≤ n)
    (hdone : allDone (crun faithfulStat (cinit n) sched).ph = true) :
    successCount (crun faithfulStat (cinit n) sched).ph = 1 ∧
    alreadyExistsCount (crun faithfulStat (cinit n) sched).ph = n - 1 ∧
    (crun faithfulStat (cinit n) sched).ns = true ∧
    ∀ (statF : Nat → Bool → Bool) (sched2 : List Nat),
      successCount (crun statF (cinit n) sched2).ph ≤ 1 := by
  have hinit1 : Inv1 (cinit n) := by
    show successCount (List.replicate n .start) = 0
    unfold successCount
    rw [List.countP_eq_zero]
    intro a ha
    rw [List.eq_of_mem_replicate ha]
    simp
  have hinitE : EvidInv (cinit n) := by
    intro q hq hbad
    exfalso
    rw [List.eq_of_mem_replicate hq] at hbad
    rcases hbad with h1 | h1 | h1 <;> simp at h1
  have hInv := crun_inv1 faithfulStat sched (cinit n) hinit1
  have hEvid := crun_evid sched (cinit n) hinitE
  have hLen : (crun faithfulStat (cinit n) sched).ph.length = n := by
    rw [crun_length]
    simp [cinit]
  have hns : (crun faithfulStat (cinit n) sched).ns = true := by
    cases hns0 : (crun faithfulStat (cinit n) sched).ns
    · exfalso
      have h0 : successCount (crun faithfulStat (cinit n) sched).ph = 0 := by
        unfold Inv1 at hInv
        rw [hns0] at hInv
        exact hInv
      have hne : (crun faithfulStat (cinit n) sched).ph ≠ [] := by
        intro he
        rw [he] at hLen
        simp at hLen
        omega
      obtain ⟨p, hp⟩ := List.exists_mem_of_ne_nil _ hne
      have hdp : isDonePhase p = true := by
        rw [allDone, List.all_eq_true] at hdone
        exact hdone p hp
      cases p with
      | start => simp [isDonePhase] at hdp
      | validated b => simp [isDonePhase] at hdp
      | checked b => simp [isDonePhase] at hdp
      | done b =>
        cases b
        · have := hEvid _ hp (Or.inr (Or.inr rfl))
          rw [hns0] at this
          simp at this
        · have hpos : 0 < successCount (crun faithfulStat (cinit n) sched).ph := by
            unfold successCount
            rw [List.countP_pos_iff]
            exact ⟨_, hp, by simp⟩
          omega
    · rfl
  have h1 : successCount (crun faithfulStat (cinit n) sched).ph = 1 := by
    unfold Inv1 at hInv
    rw [hns] at hInv
    exact hInv
  have hpart := done_partition (crun faithfulStat (cinit n) sched).ph hdone
  refine ⟨h1, by omega, hns, ?_⟩
  intro statF sched2
  have hI := crun_inv1 statF sched2 (cinit n) hinit1
  unfold Inv1 at hI
  cases hzz : (crun statF (cinit n) sched2).ns
  · have h0 : successCount (crun statF (cinit n) sched2).ph = 0 := by
      rw [hzz] at hI
      exact hI
    omega
  · have h2 : successCount (crun statF (cinit n) sched2).ph = 1 := by
      rw [hzz] at hI
      exact hI
    omega


/-- Claim C1 witness: three racing attempts under a sequential schedule;
the first claims the name, the other two end with `AlreadyExists`. -/
theorem c1_exactly_one_claim_wins_witness :
    (1 ≤ 3 ∧ allDone (crun faithfulStat (cinit 3) [0, 0, 0, 1, 1, 1, 2, 2, 2]).ph = true) ∧
    successCount (crun faithfulStat (cinit 3) [0, 0, 0, 1, 1, 1, 2, 2, 2]).ph = 1 ∧
    alreadyExistsCount (crun faithfulStat (cinit 3) [0, 0, 0, 1, 1, 1, 2, 2, 2]).ph = 3 - 1 ∧
    (crun faithfulStat (cinit 3) [0, 0, 0, 1, 1, 1, 2, 2, 2]).ns = true :=
  ⟨⟨by decide, by decide⟩,
    (c1_exactly_one_claim_wins 3 [0, 0, 0, 1, 1, 1, 2, 2, 2] (by decide) (by decide)).1,
    (c1_exactly_one_claim_wins 3 [0, 0, 0, 1, 1, 1, 2, 2, 2] (by decide) (by decide)).2.1,
    (c1_exactly_one_claim_wins 3 [0, 0, 0, 1, 1, 1, 2, 2, 2] (by decide) (by decide)).2.2.1⟩


/-- Claim C6 counterexample: the submitted candidate name "MySite" passes
validation (its lower-cased form "mysite" is valid, unreserved and free)
and the run succeeds — but the namespace entry, the DNS subdomain and the
site URL all carry the raw "MySite", not the normalized lower-cased
"mysite". -/
theorem c6_counterexample_mixed_case :
    (createSiteHandler sampleEnv healthyFaults 0 ⟨("MySite"), "", "", []⟩ emptyFS).outcome =
      .json ⟨true, ("https://MySite.flox.click"), ""⟩ ∧
    (createSiteHandler sampleEnv healthyFaults 0 ⟨("MySite"), "", "", []⟩ emptyFS).fs.dirs =
      [("MySite")] ∧
    (createSiteHandler sampleEnv healthyFaults 0 ⟨("MySite"), "", "", []⟩ emptyFS).dnsCall =
      some ⟨("MySite"), ("A"), 3600, [("1.2.3.4")]⟩ ∧
    goToLower ("MySite") = ("mysite") ∧
    ¬ (("MySite") : String) = ("mysite") :=
  ⟨rfl, rfl, rfl, by decide, by decide⟩

/-- Claim C6 amended: for every provisioning request that succeeds, the
name claimed in the namespace, the name in the persisted record, the DNS
subdomain sent to the provider and the synthesized site URL are all the
submitted candidate name verbatim; lower-casing happens only inside
validation, so they equal the normalized form only when the candidate is
already lower-case. -/
theorem c6_amended_raw_name_used (env : Env) (faults : Faults) (now : Nat)
    (req : SiteCreationRequest) (fs : FS) (url err : String)
    (hout : (createSiteHandler env faults now req fs).outcome = .json ⟨true, url, err⟩) :
    (createSiteHandler env faults now req fs).fs.dirs = req.siteName :: fs.dirs ∧
    (req.siteName, ⟨req.siteName, req.description, req.style, req.initialContent, now⟩) ∈
      (createSiteHandler env faults now req fs).fs.configs ∧
    url = ("https://") ++ req.siteName ++ (".flox.click") ∧
    ∀ p, (createSiteHandler env faults now req fs).dnsCall = some p →
      p.subname = req.siteName := by
  rcases handler_shape env faults now req fs with ⟨e, hrun⟩ | hrun | ⟨hwf, hrun⟩ |
    ⟨hip, hwf, hrun⟩ | ⟨hip, hwf, hrun⟩
  · rw [hrun] at hout
    simp at hout
  · rw [hrun] at hout
    simp at hout
  · rw [hrun] at hout
    simp at hout
  · rw [hrun] at hout
    simp at hout
  · rw [hrun] at hout ⊢
    simp at hout
    refine ⟨by simp, by simp, hout.1.symm, ?_⟩
    intro p hp
    simp at hp
    exact createARecord_subname env faults.dns req.siteName env.siteIP p hp

/-- Claim C6 amended witness: the successful "MySite" run, with the raw
name in the namespace, the record and the URL. -/
theorem c6_amended_raw_name_used_witness :
    (createSiteHandler sampleEnv healthyFaults 0 ⟨("MySite"), "", "", []⟩ emptyFS).fs.dirs =
      ("MySite") :: emptyFS.dirs ∧
    (("MySite"), (⟨("MySite"), "", "", [], 0⟩ : SiteConfig)) ∈
      (createSiteHandler sampleEnv healthyFaults 0 ⟨("MySite"), "", "", []⟩ emptyFS).fs.configs ∧
    ("https://MySite.flox.click") = ("https://") ++ ("MySite") ++ (".flox.click") :=
  ⟨(c6_amended_raw_name_used sampleEnv healthyFaults 0 ⟨("MySite"), "", "", []⟩ emptyFS
      ("https://MySite.flox.click") "" rfl).1,
    (c6_amended_raw_name_used sampleEnv healthyFaults 0 ⟨("MySite"), "", "", []⟩ emptyFS
      ("https://MySite.flox.click") "" rfl).2.1,
    (c6_amended_raw_name_used sampleEnv healthyFaults 0 ⟨("MySite"), "", "", []⟩ emptyFS
      ("https://MySite.flox.click") "" rfl).2.2.1⟩

/-- Claim C7 counterexample: a request whose record write fails creates the
namespace entry and still reports failure (the generic internal error) to
the caller — contradicting "no request both creates a namespace entry and
reports failure". -/
theorem c7_counterexample_write_failure :
    (createSiteHandler sampleEnv writeFailFaults 0 sampleReq emptyFS).outcome =
      .httpError (("Internal Server Error")) 500 ∧
    (createSiteHandler sampleEnv writeFailFaults 0 sampleReq emptyFS).fs.dirs =
      [sampleReq.siteName] :=
  ⟨rfl, rfl⟩

/-- Claim C7 amended: every provisioning request either fails before any
side effect, or succeeds with a guaranteed claim, or — after a successful
claim — reports the generic internal failure because the record write
failed, or terminates the process because the site IP value is missing; in
the last two cases the namespace entry remains although no success is
reported. -/
theorem c7_amended_side_effect_cases (env : Env) (faults : Faults) (now : Nat)
    (req : SiteCreationRequest) (fs : FS) :
    ((createSiteHandler env faults now req fs).fs = fs ∧
      ∀ url err, (createSiteHandler env faults now req fs).outcome ≠ .json ⟨true, url, err⟩) ∨
    ((createSiteHandler env faults now req fs).outcome =
        .json ⟨true, ("https://") ++ req.siteName ++ (".flox.click"), ""⟩ ∧
      req.siteName ∈ (createSiteHandler env faults now req fs).fs.dirs) ∨
    (faults.writeFails = true ∧
      (createSiteHandler env faults now req fs).outcome =
        .httpError (("Internal Server Error")) 500 ∧
      req.siteName ∈ (createSiteHandler env faults now req fs).fs.dirs) ∨
    (env.siteIP = "" ∧
      (createSiteHandler env faults now req fs).outcome =
        .fatal (("SITE_IP is not set in environment")) ∧
      req.siteName ∈ (createSiteHandler env faults now req fs).fs.dirs) := by
  rcases handler_shape env faults now req fs with ⟨e, hrun⟩ | hrun | ⟨hwf, hrun⟩ |
    ⟨hip, hwf, hrun⟩ | ⟨hip, hwf, hrun⟩
  · rw [hrun]
    exact Or.inl ⟨rfl, by intro url err; simp⟩
  · rw [hrun]
    exact Or.inl ⟨rfl, by intro url err; simp⟩
  · rw [hrun]
    exact Or.inr (Or.inr (Or.inl ⟨hwf, rfl, by simp⟩))
  · rw [hrun]
    exact Or.inr (Or.inr (Or.inr ⟨hip, rfl, by simp⟩))
  · rw [hrun]
    exact Or.inr (Or.inl ⟨rfl, by simp⟩)

/-- Claim C8 counterexample: with the site IP value missing from the
environment, a provisioning request that passes validation and claims the
name ends in `log.Fatal` — an error arising while handling the request
terminates the process, detected during handling (after the claim and the
record write), not at startup. -/
theorem c8_counterexample_fatal_in_handler :
    (createSiteHandler noIPEnv healthyFaults 0 sampleReq emptyFS).outcome =
      .fatal (("SITE_IP is not set in environment")) ∧
    (createSiteHandler noIPEnv healthyFaults 0 sampleReq emptyFS).fs.dirs =
      [sampleReq.siteName] ∧
    (sampleReq.siteName,
        ⟨sampleReq.siteName, sampleReq.description, sampleReq.style,
          sampleReq.initialContent, 0⟩) ∈
      (createSiteHandler noIPEnv healthyFaults 0 sampleReq emptyFS).fs.configs :=
  ⟨rfl, rfl, by decide⟩

/-- Claim C8 amended: the only process-terminating outcome a provisioning
request can produce is the missing-site-IP `log.Fatal`, and it is detected
during request handling, after the claim has succeeded (the namespace
entry is present when the process dies) — not at startup. -/
theorem c8_amended_fatal_only_missing_ip (env : Env) (faults : Faults) (now : Nat)
    (req : SiteCreationRequest) (fs : FS) (m : String)
    (hfat : (createSiteHandler env faults now req fs).outcome = .fatal m) :
    m = ("SITE_IP is not set in environment") ∧ env.siteIP = "" ∧
    req.siteName ∈ (createSiteHandler env faults now req fs).fs.dirs := by
  rcases handler_shape env faults now req fs with ⟨e, hrun⟩ | hrun | ⟨hwf, hrun⟩ |
    ⟨hip, hwf, hrun⟩ | ⟨hip, hwf, hrun⟩
  · rw [hrun] at hfat
    simp at hfat
  · rw [hrun] at hfat
    simp at hfat
  · rw [hrun] at hfat
    simp at hfat
  · rw [hrun] at hfat ⊢
    simp at hfat
    exact ⟨hfat.symm, hip, by simp⟩
  · rw [hrun] at hfat
    simp at hfat

/-- Claim C8 amended witness: the missing-site-IP run ends fatal after the
claim. -/
theorem c8_amended_fatal_only_missing_ip_witness :
    (("SITE_IP is not set in environment") : String) =
      ("SITE_IP is not set in environment") ∧
    noIPEnv.siteIP = "" ∧
    sampleReq.siteName ∈ (createSiteHandler noIPEnv healthyFaults 0 sampleReq emptyFS).fs.dirs :=
  c8_amended_fatal_only_missing_ip noIPEnv healthyFaults 0 sampleReq emptyFS
    ("SITE_IP is not set in environment") rfl

end Flox